import Mathlib

/-!
Verification development for the CardioRetina single-image risk classifier
(`src/app/app.py`).  The per-request pipeline is embedded shallowly:
decoded images become explicit pixel functions, numpy tensors become
structures with shape fields and a total data function, floating-point
scalars are modelled as rationals, and the fallible library calls
(`tf.keras.models.load_model`, `model.load_weights`, `json.load`) become
`Option`-valued fields of an environment record.  Streamlit's
`st.cache_resource` decorator is embedded as an explicit cache cell threaded
through a process state, with a counter recording how many times the
underlying load routine ran.
-/

namespace CardioRetina

/-- One 8-bit colour channel (0..255), as stored in a decoded PIL image. -/
abbrev Channel := Fin 256

/-- Colour modes a decoded PIL image may carry before `convert("RGB")`:
three-channel RGB, RGB with alpha, 8-bit grayscale, palette-indexed. -/
inductive ColorMode where
  | RGB
  | RGBA
  | L
  | P
deriving DecidableEq

/-- A decoded raster image (`PIL.Image`) of arbitrary size and colour mode.
`px` gives up to four raw channel samples per coordinate; modes that use
fewer channels ignore the rest.  `palette` is the colour lookup table used
when `mode = P`. -/
structure InputImage where
  width : Nat
  height : Nat
  mode : ColorMode
  px : Nat → Nat → Channel × Channel × Channel × Channel
  palette : Channel → Channel × Channel × Channel

/-- A three-channel RGB image, the result of `Image.convert("RGB")`. -/
structure RGBImage where
  width : Nat
  height : Nat
  pixel : Nat → Nat → Channel × Channel × Channel

/-- `IMAGE_RES = (224, 224)` from the configuration block of `app.py`. -/
def IMAGE_RES : Nat × Nat := (224, 224)

/-- `MODEL_PATH` from the configuration block of `app.py` (relative part). -/
def MODEL_PATH : String := "../models/CardioRetina_Model.keras"

/-- `META_PATH` from the configuration block of `app.py` (relative part). -/
def META_PATH : String := "../models/model_meta.json"

/-- `Image.convert("RGB")`: collapse any colour mode to three RGB channels,
discarding alpha, replicating a grayscale sample, or resolving a palette
index through the lookup table. -/
def convertRGB (img : InputImage) : RGBImage :=
  { width := img.width
    height := img.height
    pixel := fun x y =>
      let raw := img.px x y
      match img.mode with
      | ColorMode.RGB => (raw.1, raw.2.1, raw.2.2.1)
      | ColorMode.RGBA => (raw.1, raw.2.1, raw.2.2.1)
      | ColorMode.L => (raw.1, raw.1, raw.1)
      | ColorMode.P => img.palette raw.1 }

/-- `img.resize(size)`: direct (non aspect-ratio-preserving) resize to the
target dimensions.  PIL's resampler is modelled as coordinate sampling from
the source image; every output sample is an existing 8-bit source value, so
the value range is preserved, which is all the claims depend on. -/
def resizeImg (img : RGBImage) (size : Nat × Nat) : RGBImage :=
  { width := size.1
    height := size.2
    pixel := fun x y =>
      img.pixel (x * img.width / size.1) (y * img.height / size.2) }

/-- A rank-3 numpy array `(d0, d1, d2)` of rationals (modelling floats). -/
structure Tensor3 where
  d0 : Nat
  d1 : Nat
  d2 : Nat
  data : Nat → Nat → Nat → ℚ

/-- A rank-4 numpy array `(batch, height, width, channels)`. -/
structure Tensor4 where
  batch : Nat
  height : Nat
  width : Nat
  channels : Nat
  data : Nat → Nat → Nat → Nat → ℚ

/-- `np.array(img)` on an RGB PIL image: shape `(height, width, 3)`, entry
`[y, x, c]` is the c-th channel of the pixel at `(x, y)` as an integer. -/
def npArray (img : RGBImage) : Tensor3 :=
  { d0 := img.height
    d1 := img.width
    d2 := 3
    data := fun y x c =>
      let p := img.pixel x y
      match c with
      | 0 => ((p.1 : Nat) : ℚ)
      | 1 => ((p.2.1 : Nat) : ℚ)
      | 2 => ((p.2.2 : Nat) : ℚ)
      | _ => 0 }

/-- `/ 255.0`: elementwise scaling of the integer array to `[0, 1]`. -/
def scaleDiv255 (t : Tensor3) : Tensor3 :=
  { t with data := fun y x c => t.data y x c / 255 }

/-- `np.expand_dims(_, axis=0)`: insert a leading batch dimension of 1. -/
def expandDims0 (t : Tensor3) : Tensor4 :=
  { batch := 1
    height := t.d0
    width := t.d1
    channels := t.d2
    data := fun _ y x c => t.data y x c }

/-- The per-request preprocessing of `main`
(`np.expand_dims(np.array(img.resize(IMAGE_RES)) / 255.0, axis=0)` applied
to `Image.open(file).convert("RGB")`). -/
def preprocess (img : InputImage) : Tensor4 :=
  expandDims0 (scaleDiv255 (npArray (resizeImg (convertRGB img) IMAGE_RES)))

/-- The opaque loaded model: a callable from the preprocessed tensor to the
output array of `model.predict`, given here already in row-major flattened
order (what `.flatten()` returns). -/
structure ModelAsset where
  predict : Tensor4 → List ℚ

/-- The per-request result assembled by `main` (lines 112-114):
probability, the boolean threshold comparison and the textual label. -/
structure PredictionResult where
  probability : ℚ
  isHigh : Bool
  label : String
deriving DecidableEq

/-- `float(model.predict(processed_img, verbose=0).flatten()[0])`:
indexing `[0]` of the flattened output takes its first element and raises
`IndexError` exactly when the flattened output is empty. -/
def inferScalar (m : ModelAsset) (t : Tensor4) : Option ℚ :=
  (m.predict t).head?

/-- Lines 112-114 of `main`: `is_high = prediction > 0.5`,
`label = "high risk" if is_high else "low risk"`. -/
def classifyProb (p : ℚ) : PredictionResult :=
  let is_high := decide (p > 1/2)
  { probability := p
    isHigh := is_high
    label := if is_high then "high risk" else "low risk" }

/-- Round-to-nearest with ties to even, the rounding used by Python's
fixed-point `format` / `%.1f` conversion. -/
def roundHalfEven (q : ℚ) : ℤ :=
  if q - Int.floor q < 1/2 then Int.floor q
  else if 1/2 < q - Int.floor q then Int.floor q + 1
  else if Int.floor q % 2 = 0 then Int.floor q else Int.floor q + 1

/-- The displayed percentage of line 119, `{prediction*100:.1f}`:
`prediction * 100` rendered in fixed-point with one digit after the
decimal point. -/
def formatPct (p : ℚ) : String :=
  let t := (roundHalfEven (p * 100 * 10)).toNat
  toString (t / 10) ++ "." ++ toString (t % 10)

/-- The parsed metadata record (`json.load` of `model_meta.json`),
modelled as a key-value list; the pipeline never reads its fields. -/
abbrev Meta := List (String × String)

/-- One layer of the fallback architecture built in `load_model_assets`. -/
inductive Layer where
  | mobileNetV2 (weights : Option String) (includeTop : Bool)
      (inputShape : Nat × Nat × Nat)
  | globalAveragePooling2D
  | dropout (rate : ℚ)
  | dense (units : Nat) (activation : String)
deriving DecidableEq

/-- The fixed fallback architecture of `load_model_assets`:
`MobileNetV2(weights=None, include_top=False, input_shape=(224, 224, 3))`
followed by `GlobalAveragePooling2D()`, `Dropout(0.3)` and
`Dense(1, activation='sigmoid')`. -/
def fallbackArchitecture : List Layer :=
  [ Layer.mobileNetV2 none false (224, 224, 3)
  , Layer.globalAveragePooling2D
  , Layer.dropout (3/10)
  , Layer.dense 1 "sigmoid" ]

/-- The outcomes of the fallible external calls made by
`load_model_assets`: reading and parsing the metadata file, direct
deserialization of the full model, and loading bare weights into the
reconstructed fallback architecture.  `none` means the call raises. -/
structure Env where
  metaRead : Option Meta
  fullLoad : Option ModelAsset
  weightsLoad : Option ModelAsset

/-- An observable step of the loading algorithm, for stating in which
order and under which conditions the loader acts. -/
inductive LoadStep where
  | directLoad (path : String) (compileFlag : Bool)
  | buildFallback (arch : List Layer)
  | loadWeights (path : String)
deriving DecidableEq

/-- The body of `load_model_assets`: read the metadata, then try
`tf.keras.models.load_model(MODEL_PATH, compile=False)`; on any exception
build the fallback architecture and `model.load_weights(MODEL_PATH)`.  The
outer handler turns any remaining failure into `(None, None)`. -/
def load_model_assets (env : Env) : Option ModelAsset × Option Meta :=
  match env.metaRead with
  | none => (none, none)
  | some meta =>
    match env.fullLoad with
    | some m => (some m, some meta)
    | none =>
      match env.weightsLoad with
      | some m => (some m, some meta)
      | none => (none, none)

/-- The sequence of loading steps `load_model_assets` performs, in order,
once the metadata file has been read. -/
def load_trace (env : Env) : List LoadStep :=
  match env.metaRead with
  | none => []
  | some _ =>
    match env.fullLoad with
    | some _ => [LoadStep.directLoad MODEL_PATH false]
    | none =>
      [ LoadStep.directLoad MODEL_PATH false
      , LoadStep.buildFallback fallbackArchitecture
      , LoadStep.loadWeights MODEL_PATH ]

/-- Per-process state: the `st.cache_resource` cell holding the value
returned by the single execution of `load_model_assets` (a failed load is
cached as `(none, none)` too), a counter of how many times the underlying
load routine actually ran, and `st.session_state.uploader_key`. -/
structure ProcState where
  cache : Option (Option ModelAsset × Option Meta)
  loadCount : Nat
  uploaderKey : Nat

/-- The fresh state of a process before the first request. -/
def initialState : ProcState :=
  { cache := none, loadCount := 0, uploaderKey := 0 }

/-- The accessor generated by `@st.cache_resource` on `load_model_assets`:
return the cached value if present, otherwise run the load routine once
and store its result. -/
def getAssets (env : Env) (s : ProcState) :
    (Option ModelAsset × Option Meta) × ProcState :=
  match s.cache with
  | some v => (v, s)
  | none =>
    let v := load_model_assets env
    (v, { s with cache := some v, loadCount := s.loadCount + 1 })

/-- `handle_restart`: increment the uploader widget key. -/
def handle_restart (s : ProcState) : ProcState :=
  { s with uploaderKey := s.uploaderKey + 1 }

/-- What `Image.open(file).convert("RGB")` produced for an uploaded file:
a decoded image, or an exception (`ImageDecodeError`). -/
inductive DecodeResult where
  | ok (img : InputImage)
  | failed

/-- The outcome of one run of `main`'s classification section:
branch not taken (`if file and model:` false), decode exception,
`IndexError` while extracting the scalar, or a rendered result. -/
inductive RequestOutcome where
  | noAction
  | decodeError
  | inferenceError
  | result (r : PredictionResult)

/-- One run of `main` for one request: fetch the cached assets, and if a
file is present and the model is not `None`, decode, preprocess, predict
and classify.  Decoding happens inside the guard, so with no model no
decode is attempted; any per-request exception leaves the state as the
cache lookup left it. -/
def processRequest (env : Env) (upload : Option DecodeResult)
    (s : ProcState) : RequestOutcome × ProcState :=
  let r := getAssets env s
  (match upload, r.1.1 with
   | some (DecodeResult.ok img), some m =>
     match inferScalar m (preprocess img) with
     | some p => RequestOutcome.result (classifyProb p)
     | none => RequestOutcome.inferenceError
   | some DecodeResult.failed, some _ => RequestOutcome.decodeError
   | _, _ => RequestOutcome.noAction,
   r.2)

/-- The tensor handed to `model.predict` during one run of `main`, if the
classification branch is taken: exactly `preprocess img`, whatever the
process state is. -/
def requestTensorS (env : Env) (s : ProcState)
    (upload : Option DecodeResult) : Option Tensor4 :=
  match upload with
  | some (DecodeResult.ok img) =>
    match (getAssets env s).1.1 with
    | some _ => some (preprocess img)
    | none => none
  | _ => none

/-- A sequence of runs of `main`, threading the process state. -/
def runRequests (env : Env) (uploads : List (Option DecodeResult))
    (s : ProcState) : ProcState :=
  uploads.foldl (fun st u => (processRequest env u st).2) s

/-- A 224×224 all-gray sample image (every channel 128), in RGB mode. -/
def grayImage : InputImage :=
  { width := 224
    height := 224
    mode := ColorMode.RGB
    px := fun _ _ => (128, 128, 128, 128)
    palette := fun _ => (0, 0, 0) }

/-- A deterministic stub model that always outputs the single value 0.9. -/
def stubModel : ModelAsset :=
  { predict := fun _ => [9/10] }

/-- A stub model whose flattened output has two elements. -/
def multiModel : ModelAsset :=
  { predict := fun _ => [3/10, 7/10] }

/-- The preprocessed sample tensor. -/
def sampleTensor : Tensor4 :=
  preprocess grayImage

/-- An environment in which every external call succeeds. -/
def sampleEnv : Env :=
  { metaRead := some [], fullLoad := some stubModel
    weightsLoad := some stubModel }

/-- An environment in which the metadata file is unreadable. -/
def emptyEnv : Env :=
  { metaRead := none, fullLoad := none, weightsLoad := none }

/-- An environment in which direct deserialization raises but loading bare
weights into the fallback architecture succeeds. -/
def fallbackEnv : Env :=
  { metaRead := some [], fullLoad := none, weightsLoad := some stubModel }

/-- A process state whose cache already holds a successfully loaded model. -/
def cachedState : ProcState :=
  { cache := some (some stubModel, some []), loadCount := 1, uploaderKey := 0 }

/-- A second, different process state with the same cached model. -/
def otherState : ProcState :=
  { cache := some (some stubModel, some []), loadCount := 1, uploaderKey := 7 }

/-- Bounds for a single scaled channel sample: an 8-bit value divided by
255 lies in `[0, 1]`. -/
lemma channel_div_bounds (v : Channel) :
    0 ≤ ((v : Nat) : ℚ) / 255 ∧ ((v : Nat) : ℚ) / 255 ≤ 1 := by
  constructor
  · positivity
  · rw [div_le_one (by norm_num)]
    exact_mod_cast Nat.lt_succ_iff.mp v.isLt

/-- Every entry of the scaled rank-3 array lies in `[0, 1]`. -/
lemma scaled_data_bounds (img : RGBImage) (y x c : Nat) :
    0 ≤ (scaleDiv255 (npArray img)).data y x c ∧
      (scaleDiv255 (npArray img)).data y x c ≤ 1 := by
  rcases c with _ | _ | _ | c
  · simpa [scaleDiv255, npArray] using channel_div_bounds (img.pixel x y).1
  · simpa [scaleDiv255, npArray] using channel_div_bounds (img.pixel x y).2.1
  · simpa [scaleDiv255, npArray] using channel_div_bounds (img.pixel x y).2.2
  · simp [scaleDiv255, npArray]

/-- Rounding a nonnegative rational half-to-even is nonnegative. -/
lemma roundHalfEven_nonneg (q : ℚ) (h : 0 ≤ q) : 0 ≤ roundHalfEven q := by
  have hf : (0 : ℤ) ≤ Int.floor q := Int.le_floor.mpr (by exact_mod_cast h)
  unfold roundHalfEven
  split
  · exact hf
  · split
    · omega
    · split
      · exact hf
      · omega

/-- C2: for every decoded input image, whatever its original dimensions and
colour mode, the preprocessing pipeline (convert to RGB, resize to 224×224,
divide by 255, insert a leading batch dimension) yields a tensor of shape
`(1, 224, 224, 3)` all of whose entries lie in `[0, 1]`. -/
theorem preprocess_shape_and_range (img : InputImage) :
    (preprocess img).batch = 1 ∧
    (preprocess img).height = 224 ∧
    (preprocess img).width = 224 ∧
    (preprocess img).channels = 3 ∧
    ∀ b y x c, 0 ≤ (preprocess img).data b y x c ∧
      (preprocess img).data b y x c ≤ 1 := by
  refine ⟨rfl, rfl, rfl, rfl, fun b y x c => ?_⟩
  simpa [preprocess, expandDims0] using
    scaled_data_bounds (resizeImg (convertRGB img) IMAGE_RES) y x c

/-- C1: for every probability `p` in `[0, 1]`, the risk classifier compares
with strict inequality against 0.5: `isHigh` holds exactly when `p > 1/2`,
`p = 1/2` is labelled "low risk", and any `p > 1/2` is labelled
"high risk". -/
theorem classify_threshold (p : ℚ) (h0 : 0 ≤ p) (h1 : p ≤ 1) :
    ((classifyProb p).isHigh = true ↔ p > 1/2) ∧
    (classifyProb p).probability = p ∧
    (p = 1/2 → (classifyProb p).label = "low risk") ∧
    (p > 1/2 → (classifyProb p).label = "high risk") := by
  refine ⟨by simp [classifyProb], rfl, ?_, ?_⟩
  · intro hp
    subst hp
    simp [classifyProb]
  · intro hp
    simp [classifyProb]
    linarith

/-- Witness for C1 at the boundary probability `p = 1/2`. -/
theorem classify_threshold_witness :
    ((classifyProb (1/2)).isHigh = true ↔ (1:ℚ)/2 > 1/2) ∧
    (classifyProb (1/2)).probability = 1/2 ∧
    ((1:ℚ)/2 = 1/2 → (classifyProb (1/2)).label = "low risk") ∧
    ((1:ℚ)/2 > 1/2 → (classifyProb (1/2)).label = "high risk") :=
  classify_threshold (1/2) (by norm_num) (by norm_num)

/-- C4 counterexample: a model whose flattened output has two elements is
not rejected by the scalar extraction of line 110; `.flatten()[0]` simply
takes the first element. -/
theorem scalar_extraction_counterexample :
    (multiModel.predict sampleTensor).length = 2 ∧
    inferScalar multiModel sampleTensor ≠ none ∧
    inferScalar multiModel sampleTensor = some (3/10) := by
  refine ⟨rfl, ?_, rfl⟩
  simp [inferScalar, multiModel]

/-- C4 as amended: the inference engine extracts the first scalar of the
model's flattened output; it fails exactly when that output is empty, and
an output with one or more elements succeeds with its first element. -/
theorem scalar_extraction_first (m : ModelAsset) (t : Tensor4) :
    (inferScalar m t = none ↔ m.predict t = []) ∧
    ∀ p rest, m.predict t = p :: rest → inferScalar m t = some p := by
  constructor
  · rcases h : m.predict t with _ | ⟨a, l⟩ <;> simp [inferScalar, h]
  · intro p rest h
    simp [inferScalar, h]

/-- Witness for C4's amended theorem on the single-output stub model. -/
theorem scalar_extraction_first_witness :
    inferScalar stubModel sampleTensor = some (9/10) :=
  (scalar_extraction_first stubModel sampleTensor).2 (9/10) [] rfl

/-- C6: for every probability `p` in `[0, 1]` the displayed percentage is
`p * 100` rendered in fixed point with exactly one digit after the decimal
point, and in particular 0.8854 renders as "88.5", 0.0 as "0.0" and 1.0 as
"100.0". -/
theorem formatPct_one_decimal (p : ℚ) (h0 : 0 ≤ p) (h1 : p ≤ 1) :
    (∃ n d : Nat, d ≤ 9 ∧
        formatPct p = toString n ++ "." ++ toString d ∧
        ((10 * n + d : Nat) : ℤ) = roundHalfEven (p * 100 * 10)) ∧
    formatPct (8854/10000) = "88.5" ∧
    formatPct 0 = "0.0" ∧
    formatPct 1 = "100.0" := by
  refine ⟨?_, ?_, ?_, ?_⟩
  · refine ⟨(roundHalfEven (p * 100 * 10)).toNat / 10,
      (roundHalfEven (p * 100 * 10)).toNat % 10, ?_, rfl, ?_⟩
    · omega
    · have hnn : 0 ≤ roundHalfEven (p * 100 * 10) :=
        roundHalfEven_nonneg _ (by positivity)
      push_cast [Nat.div_add_mod]
      rw [Int.toNat_of_nonneg hnn]
  · have hf : Int.floor ((8854:ℚ)/10000 * 100 * 10) = 885 := by
      rw [Int.floor_eq_iff] <;> norm_num
    have hr : roundHalfEven ((8854:ℚ)/10000 * 100 * 10) = 885 := by
      unfold roundHalfEven
      rw [hf]
      norm_num
    simp only [formatPct, hr]
    decide
  · have hf : Int.floor ((0:ℚ) * 100 * 10) = 0 := by
      rw [Int.floor_eq_iff] <;> norm_num
    have hr : roundHalfEven ((0:ℚ) * 100 * 10) = 0 := by
      unfold roundHalfEven
      rw [hf]
      norm_num
    simp only [formatPct, hr]
    decide
  · have hf : Int.floor ((1:ℚ) * 100 * 10) = 1000 := by
      rw [Int.floor_eq_iff] <;> norm_num
    have hr : roundHalfEven ((1:ℚ) * 100 * 10) = 1000 := by
      unfold roundHalfEven
      rw [hf]
      norm_num
    simp only [formatPct, hr]
    decide

/-- Witness for C6 at the probability 0.8854. -/
theorem formatPct_one_decimal_witness :
    (∃ n d : Nat, d ≤ 9 ∧
        formatPct (8854/10000) = toString n ++ "." ++ toString d ∧
        ((10 * n + d : Nat) : ℤ) = roundHalfEven ((8854:ℚ)/10000 * 100 * 10)) ∧
    formatPct (8854/10000) = "88.5" ∧
    formatPct 0 = "0.0" ∧
    formatPct 1 = "100.0" :=
  formatPct_one_decimal (8854/10000) (by norm_num) (by norm_num)

/-- The cache accessor is a no-op on a state whose cell is already full. -/
lemma getAssets_cached (env : Env) {s : ProcState}
    {v : Option ModelAsset × Option Meta} (h : s.cache = some v) :
    getAssets env s = (v, s) := by
  simp [getAssets, h]

/-- A run of `main` changes the state exactly as the cache lookup does. -/
lemma processRequest_state (env : Env) (u : Option DecodeResult)
    (s : ProcState) : (processRequest env u s).2 = (getAssets env s).2 :=
  rfl

/-- After the cache accessor runs, the cell is full. -/
lemma getAssets_fills_cache (env : Env) (s : ProcState) :
    ∃ v, ((getAssets env s).2).cache = some v := by
  rcases h : s.cache with _ | v
  · exact ⟨load_model_assets env, by simp [getAssets, h]⟩
  · exact ⟨v, by simp [getAssets, h]⟩

/-- Requests starting from a state with a full cache leave it untouched. -/
lemma runRequests_cached (env : Env) (uploads : List (Option DecodeResult))
    {s : ProcState} {v : Option ModelAsset × Option Meta}
    (h : s.cache = some v) : runRequests env uploads s = s := by
  induction uploads with
  | nil => rfl
  | cons u rest ih =>
    show runRequests env rest (processRequest env u s).2 = s
    rw [processRequest_state, getAssets_cached env h]
    exact ih

/-- C5: two consecutive calls of the cached accessor return the stored
value again without touching the state, and across any sequence of
requests in one process the underlying load routine runs at most once. -/
theorem assets_loaded_at_most_once (env : Env) (s : ProcState)
    (uploads : List (Option DecodeResult)) :
    (getAssets env (getAssets env s).2).1 = (getAssets env s).1 ∧
    getAssets env (getAssets env s).2 = ((getAssets env s).1, (getAssets env s).2) ∧
    (runRequests env uploads initialState).loadCount ≤ 1 := by
  have hfull : ∃ v, ((getAssets env s).2).cache = some v ∧ (getAssets env s).1 = v := by
    rcases h : s.cache with _ | v
    · exact ⟨load_model_assets env, by simp [getAssets, h], by simp [getAssets, h]⟩
    · exact ⟨v, by simp [getAssets, h], by simp [getAssets, h]⟩
  obtain ⟨v, hc, hv⟩ := hfull
  have hsecond : getAssets env (getAssets env s).2 = (v, (getAssets env s).2) :=
    getAssets_cached env hc
  refine ⟨by rw [hsecond, hv], by rw [hsecond, hv], ?_⟩
  cases uploads with
  | nil => simp [runRequests, initialState]
  | cons u rest =>
    have h1 : (processRequest env u initialState).2 =
        { cache := some (load_model_assets env), loadCount := 1, uploaderKey := 0 } := by
      rw [processRequest_state]
      simp [getAssets, initialState]
    show (runRequests env rest (processRequest env u initialState).2).loadCount ≤ 1
    rw [h1, runRequests_cached env rest rfl]

/-- C9: a decode failure on one request leaves the process state, and in
particular the cached ModelAsset, unchanged; a subsequent request with a
valid image still succeeds through the very same cached model. -/
theorem decode_failure_isolated (env : Env) (s : ProcState) (m : ModelAsset)
    (mo : Option Meta) (img : InputImage) (p : ℚ)
    (hc : s.cache = some (some m, mo))
    (hp : (m.predict (preprocess img)).head? = some p) :
    processRequest env (some DecodeResult.failed) s = (RequestOutcome.decodeError, s) ∧
    processRequest env (some (DecodeResult.ok img))
        ((processRequest env (some DecodeResult.failed) s).2)
      = (RequestOutcome.result (classifyProb p), s) := by
  have hg : getAssets env s = ((some m, mo), s) := getAssets_cached env hc
  have h1 : processRequest env (some DecodeResult.failed) s
      = (RequestOutcome.decodeError, s) := by
    simp [processRequest, hg]
  refine ⟨h1, ?_⟩
  rw [h1]
  simp [processRequest, hg, inferScalar, hp]

/-- Witness for C9 on the stub model and the gray sample image. -/
theorem decode_failure_isolated_witness :
    processRequest sampleEnv (some DecodeResult.failed) cachedState
      = (RequestOutcome.decodeError, cachedState) ∧
    processRequest sampleEnv (some (DecodeResult.ok grayImage))
        ((processRequest sampleEnv (some DecodeResult.failed) cachedState).2)
      = (RequestOutcome.result (classifyProb (9/10)), cachedState) :=
  decode_failure_isolated sampleEnv cachedState stubModel (some []) grayImage
    (9/10) rfl rfl

/-- C10: if asset loading fails for any reason (unreadable metadata, or
both load paths failing) the loader returns a `none` model, and with a
`none` model the classification branch of `main` is never taken, whatever
file is uploaded. -/
theorem load_failure_skips_inference (env : Env) (s : ProcState)
    (u : Option DecodeResult)
    (h : env.metaRead = none ∨ (env.fullLoad = none ∧ env.weightsLoad = none))
    (hs : s.cache = none ∨ s.cache = some (none, none)) :
    load_model_assets env = (none, none) ∧
    (processRequest env u s).1 = RequestOutcome.noAction := by
  have hl : load_model_assets env = (none, none) := by
    rcases h with h | ⟨h1, h2⟩
    · simp [load_model_assets, h]
    · rcases hm : env.metaRead with _ | meta
      · simp [load_model_assets, hm]
      · simp [load_model_assets, hm, h1, h2]
  refine ⟨hl, ?_⟩
  have hg : (getAssets env s).1.1 = none := by
    rcases hs with hs | hs
    · simp [getAssets, hs, hl]
    · simp [getAssets, hs]
  rcases u with _ | d
  · simp [processRequest, hg]
  · rcases d with img | _ <;> simp [processRequest, hg]

/-- Witness for C10: unreadable metadata, fresh process, a valid upload. -/
theorem load_failure_skips_inference_witness :
    load_model_assets emptyEnv = (none, none) ∧
    (processRequest emptyEnv (some (DecodeResult.ok grayImage)) initialState).1
      = RequestOutcome.noAction :=
  load_failure_skips_inference emptyEnv initialState
    (some (DecodeResult.ok grayImage)) (Or.inl rfl) (Or.inl rfl)

/-- C7: every tensor that reaches `model.predict` in a run of `main` has
shape `(1, 224, 224, 3)`; equivalently, a tensor of any other shape is
never passed to the inference engine (nothing in the pipeline can even
produce one, since the resize step fixes the shape). -/
theorem inference_input_shape (t : Tensor4)
    (h : ∃ env s u, requestTensorS env s u = some t) :
    t.batch = 1 ∧ t.height = 224 ∧ t.width = 224 ∧ t.channels = 3 := by
  obtain ⟨env, s, u, h⟩ := h
  unfold requestTensorS at h
  rcases u with _ | d
  · simp at h
  · rcases d with img | _
    · rcases hm : (getAssets env s).1.1 with _ | m
      · rw [hm] at h
        simp at h
      · rw [hm] at h
        simp only [Option.some.injEq] at h
        rw [← h]
        exact ⟨rfl, rfl, rfl, rfl⟩
    · simp at h

/-- Witness for C7 on the gray sample image. -/
theorem inference_input_shape_witness :
    sampleTensor.batch = 1 ∧ sampleTensor.height = 224 ∧
    sampleTensor.width = 224 ∧ sampleTensor.channels = 3 :=
  inference_input_shape sampleTensor
    ⟨sampleEnv, cachedState, some (DecodeResult.ok grayImage), rfl⟩

/-- C8: the tensor produced for a given decoded image is the same whatever
the process state or environment is — preprocessing is a pure function of
the image, so running it twice on the same bytes gives identical tensors. -/
theorem preprocessing_pure (env1 env2 : Env) (s1 s2 : ProcState)
    (img : InputImage) (t1 t2 : Tensor4)
    (h1 : requestTensorS env1 s1 (some (DecodeResult.ok img)) = some t1)
    (h2 : requestTensorS env2 s2 (some (DecodeResult.ok img)) = some t2) :
    t1 = t2 ∧ t1 = preprocess img := by
  have e1 : t1 = preprocess img := by
    unfold requestTensorS at h1
    rcases hm : (getAssets env1 s1).1.1 with _ | m
    · rw [hm] at h1
      simp at h1
    · rw [hm] at h1
      simp only [Option.some.injEq] at h1
      exact h1.symm
  have e2 : t2 = preprocess img := by
    unfold requestTensorS at h2
    rcases hm : (getAssets env2 s2).1.1 with _ | m
    · rw [hm] at h2
      simp at h2
    · rw [hm] at h2
      simp only [Option.some.injEq] at h2
      exact h2.symm
  exact ⟨e1.trans e2.symm, e1⟩

/-- Witness for C8: two different states and environments, same image. -/
theorem preprocessing_pure_witness :
    sampleTensor = sampleTensor ∧ sampleTensor = preprocess grayImage :=
  preprocessing_pure sampleEnv fallbackEnv cachedState otherState grayImage
    sampleTensor sampleTensor rfl rfl

/-- C3: once the metadata has been read, the loader first attempts direct
deserialization from `MODEL_PATH` without compiling; exactly when that
attempt fails it builds the fixed fallback architecture (MobileNetV2
backbone with no pretrained weights and no top, global average pooling,
dropout, one sigmoid dense unit) and loads bare weights from the same
path; when the direct attempt succeeds its model is returned directly. -/
theorem loader_fallback (env : Env) (meta : Meta)
    (h : env.metaRead = some meta) :
    (load_trace env).head? = some (LoadStep.directLoad MODEL_PATH false) ∧
    fallbackArchitecture =
      [ Layer.mobileNetV2 none false (224, 224, 3)
      , Layer.globalAveragePooling2D
      , Layer.dropout (3/10)
      , Layer.dense 1 "sigmoid" ] ∧
    (env.fullLoad = none ↔
      LoadStep.buildFallback fallbackArchitecture ∈ load_trace env) ∧
    (env.fullLoad = none →
      load_trace env =
        [ LoadStep.directLoad MODEL_PATH false
        , LoadStep.buildFallback fallbackArchitecture
        , LoadStep.loadWeights MODEL_PATH ]) ∧
    (∀ m, env.fullLoad = some m →
      load_model_assets env = (some m, some meta)) := by
  rcases hf : env.fullLoad with _ | m
  · refine ⟨by simp [load_trace, h, hf], rfl, ?_, ?_, ?_⟩
    · simp [load_trace, h, hf]
    · intro _
      simp [load_trace, h, hf]
    · intro m hm
      exact Option.noConfusion hm
  · refine ⟨by simp [load_trace, h, hf], rfl, ?_, ?_, ?_⟩
    · simp [load_trace, h, hf]
    · intro hn
      exact Option.noConfusion hn
    · intro m' hm
      injection hm with hm
      subst hm
      simp [load_model_assets, h, hf]

/-- Witness for C3 in the environment where direct deserialization raises
and the weights-only fallback succeeds. -/
theorem loader_fallback_witness :
    (load_trace fallbackEnv).head? = some (LoadStep.directLoad MODEL_PATH false) ∧
    fallbackArchitecture =
      [ Layer.mobileNetV2 none false (224, 224, 3)
      , Layer.globalAveragePooling2D
      , Layer.dropout (3/10)
      , Layer.dense 1 "sigmoid" ] ∧
    (fallbackEnv.fullLoad = none ↔
      LoadStep.buildFallback fallbackArchitecture ∈ load_trace fallbackEnv) ∧
    (fallbackEnv.fullLoad = none →
      load_trace fallbackEnv =
        [ LoadStep.directLoad MODEL_PATH false
        , LoadStep.buildFallback fallbackArchitecture
        , LoadStep.loadWeights MODEL_PATH ]) ∧
    (∀ m, fallbackEnv.fullLoad = some m →
      load_model_assets fallbackEnv = (some m, some [])) :=
  loader_fallback fallbackEnv [] rfl

end CardioRetina
